import Mathlib

/-!
Shallow embedding of the camera/projection/controller subsystem of the
taggix viewer, together with the input routing, resize guard and OBJ
loading code of `src/main.rs`, `src/create_obj.rs` and `src/vertex.rs`.

`f32`/`f64` values of the source are modelled as real numbers; `u32`
dimensions as naturals; angle values are radians (cgmath's `Rad`, with
degree literals converted by `deg`).

The file `src/camera.rs` of the repository is not available: only its
callers (`src/main.rs`) are.  Following the specification, the
`Camera`, `Projection` and `CameraController` components are modelled
from the spec's section 3 and 4 word for word; every such definition
carries a doc comment starting with `Modelled from the spec:`.
-/

namespace Taggix

/-- A 3-component vector of reals, modelling `cgmath::Vector3<f32>` /
`cgmath::Point3<f32>`. -/
structure Vec3 where
  x : ℝ
  y : ℝ
  z : ℝ

/-- Componentwise vector addition. -/
def Vec3.add (a b : Vec3) : Vec3 := ⟨a.x + b.x, a.y + b.y, a.z + b.z⟩

/-- Componentwise vector subtraction. -/
def Vec3.sub (a b : Vec3) : Vec3 := ⟨a.x - b.x, a.y - b.y, a.z - b.z⟩

/-- Scalar multiple of a vector. -/
def Vec3.smul (k : ℝ) (v : Vec3) : Vec3 := ⟨k * v.x, k * v.y, k * v.z⟩

/-- Euclidean dot product. -/
def Vec3.dot (a b : Vec3) : ℝ := a.x * b.x + a.y * b.y + a.z * b.z

/-- Cross product, used by the modelled look-at matrix. -/
def Vec3.cross (a b : Vec3) : Vec3 :=
  ⟨a.y * b.z - a.z * b.y, a.z * b.x - a.x * b.z, a.x * b.y - a.y * b.x⟩

/-- Normalisation to a unit vector (cgmath `normalize`). -/
noncomputable def Vec3.normalize (v : Vec3) : Vec3 :=
  Vec3.smul (1 / Real.sqrt (Vec3.dot v v)) v

/-- Degrees to radians, modelling cgmath's `Deg` → `Rad` conversion. -/
noncomputable def deg (d : ℝ) : ℝ := d * Real.pi / 180

/-- Modelled from the spec: the pitch clamp bound, `89°` ("clamp to
±89° is the standard bound used"), in radians. -/
noncomputable def pitchBound : ℝ := deg 89

/-- Modelled from the spec: "Clamp `camera.pitch` to `[-89°, +89°]`". -/
noncomputable def clampPitch (x : ℝ) : ℝ :=
  max (-pitchBound) (min pitchBound x)

/-- Modelled from the spec: the `Camera` data model — `position` (3D
world-space point), signed `yaw` and `pitch` angles, no roll.
`src/camera.rs` is not available. -/
structure Camera where
  position : Vec3
  yaw : ℝ
  pitch : ℝ

/-- Modelled from the spec: `Camera` is "constructed once at startup
from an initial position + initial yaw/pitch". -/
def Camera.new (position : Vec3) (yaw pitch : ℝ) : Camera :=
  ⟨position, yaw, pitch⟩

/-- Modelled from the spec: the movement basis "Compute `(forward,
right)` unit vectors from `camera.yaw` (ignoring pitch)": the forward
vector at a yaw angle, already of unit length. -/
noncomputable def forwardOf (yaw : ℝ) : Vec3 :=
  ⟨Real.cos yaw, 0, Real.sin yaw⟩

/-- Modelled from the spec: the right-hand companion of `forwardOf`,
the horizontal unit vector perpendicular to it. -/
noncomputable def rightOf (yaw : ℝ) : Vec3 :=
  ⟨-Real.sin yaw, 0, Real.cos yaw⟩

/-- Modelled from the spec: `view_matrix()` "builds a right-handed
look-at-style matrix from `position` and the orientation basis derived
from `yaw`/`pitch`. Forward vector =
`(cos(pitch)·cos(yaw), sin(pitch), cos(pitch)·sin(yaw))`".
Named `calc_matrix` after the call `camera.calc_matrix()` in
`src/main.rs`. -/
noncomputable def Camera.calc_matrix (cam : Camera) : Matrix (Fin 4) (Fin 4) ℝ :=
  let f : Vec3 := Vec3.normalize
    ⟨Real.cos cam.pitch * Real.cos cam.yaw, Real.sin cam.pitch,
      Real.cos cam.pitch * Real.sin cam.yaw⟩
  let s : Vec3 := Vec3.normalize (Vec3.cross f ⟨0, 1, 0⟩)
  let u : Vec3 := Vec3.cross s f
  Matrix.of
    ![![s.x, s.y, s.z, -(Vec3.dot s cam.position)],
      ![u.x, u.y, u.z, -(Vec3.dot u cam.position)],
      ![-f.x, -f.y, -f.z, Vec3.dot f cam.position],
      ![0, 0, 0, 1]]

/-- Modelled from the spec: the `Projection` data model —
`aspect_ratio` (width/height), constant `fov_y` and clip planes.
`src/camera.rs` is not available. -/
structure Projection where
  aspect_ratio : ℝ
  fov_y : ℝ
  z_near : ℝ
  z_far : ℝ

/-- Modelled from the spec: `Projection` construction from viewport
width/height in pixels plus the constant parameters (the call
`Projection::new(config.width, config.height, Deg(45.0), 0.1, 100.0)`
in `src/main.rs`). -/
noncomputable def Projection.new (width height : ℕ) (fov_y z_near z_far : ℝ) :
    Projection :=
  ⟨(width : ℝ) / (height : ℝ), fov_y, z_near, z_far⟩

/-- Modelled from the spec: "`resize(width, height)`: recomputes
`aspect_ratio = width / height`"; the only mutator of `Projection`. -/
noncomputable def Projection.resize (p : Projection) (width height : ℕ) :
    Projection :=
  { p with aspect_ratio := (width : ℝ) / (height : ℝ) }

/-- Modelled from the spec: `projection_matrix()` is a "standard
perspective projection from `fov_y`, `aspect_ratio`, `z_near`,
`z_far`" in the wgpu clip-space convention (depth range `[0,1]`).
Named `calc_matrix` after the call `projection.calc_matrix()` in
`src/main.rs`. -/
noncomputable def Projection.calc_matrix (p : Projection) :
    Matrix (Fin 4) (Fin 4) ℝ :=
  let t : ℝ := Real.tan (p.fov_y / 2)
  Matrix.of
    ![![1 / (p.aspect_ratio * t), 0, 0, 0],
      ![0, 1 / t, 0, 0],
      ![0, 0, p.z_far / (p.z_near - p.z_far),
        (p.z_near * p.z_far) / (p.z_near - p.z_far)],
      ![0, 0, -1, 0]]

/-- Modelled from the spec: the `CameraController` data model — six
per-direction movement intents (each set to `1.0` on press, `0.0` on
release), the horizontal/vertical look accumulators, the scroll
accumulator, and the immutable `move_speed` / `look_sensitivity`
configuration.  `src/camera.rs` is not available. -/
structure CameraController where
  intent_forward : ℝ
  intent_backward : ℝ
  intent_left : ℝ
  intent_right : ℝ
  intent_up : ℝ
  intent_down : ℝ
  rotate_horizontal_accum : ℝ
  rotate_vertical_accum : ℝ
  scroll_accum : ℝ
  move_speed : ℝ
  look_sensitivity : ℝ

/-- Modelled from the spec: "constructed once with fixed
speed/sensitivity", all accumulators and intents zero (the call
`CameraController::new(4.0, 0.4)` in `src/main.rs`). -/
def CameraController.new (speed sensitivity : ℝ) : CameraController :=
  ⟨0, 0, 0, 0, 0, 0, 0, 0, 0, speed, sensitivity⟩

/-- The six recognised direction keys of the spec's `process_key`,
plus `other` for every unrecognised key code. -/
inductive Key
  | forward
  | backward
  | left
  | right
  | up
  | down
  | other
deriving DecidableEq, Repr

/-- Modelled from the spec: "`process_key(key, pressed) -> handled`:
for each of the six recognized direction keys, sets that axis's intent
to `1.0` on press and `0.0` on release; returns whether the key was
one of the recognized set.  Unrecognized keys return `false` and have
no effect."  Called `process_keyboard` at its call site in
`src/main.rs`. -/
def CameraController.process_key (c : CameraController) (key : Key)
    (pressed : Bool) : CameraController × Bool :=
  let amount : ℝ := if pressed then 1 else 0
  match key with
  | .forward => ({ c with intent_forward := amount }, true)
  | .backward => ({ c with intent_backward := amount }, true)
  | .left => ({ c with intent_left := amount }, true)
  | .right => ({ c with intent_right := amount }, true)
  | .up => ({ c with intent_up := amount }, true)
  | .down => ({ c with intent_down := amount }, true)
  | .other => (c, false)

/-- Modelled from the spec: "`process_mouse(dx, dy)`: adds `dx` to the
horizontal-look accumulator and `dy` to the vertical-look accumulator
… multiple calls between ticks must sum, not overwrite." -/
def CameraController.process_mouse (c : CameraController) (dx dy : ℝ) :
    CameraController :=
  { c with
    rotate_horizontal_accum := c.rotate_horizontal_accum + dx
    rotate_vertical_accum := c.rotate_vertical_accum + dy }

/-- Modelled from the spec: "`process_scroll(delta)`: adds a normalized
scroll magnitude to the scroll accumulator" (the delta argument is the
already-normalised magnitude). -/
def CameraController.process_scroll (c : CameraController) (delta : ℝ) :
    CameraController :=
  { c with scroll_accum := c.scroll_accum + delta }

/-- Modelled from the spec, section 4.3 step by step: the per-frame
integrator `update(camera, dt)` — movement along the yaw-only
`(forward, right)` basis and the dedicated up/down axis, the scroll
impulse along `forward`, yaw/pitch integration with inverted vertical
sign, the `[-89°, +89°]` pitch clamp, and the reset of the rotation
and scroll accumulators (key intents are not reset).  Called
`update_camera` at its call site in `src/main.rs`. -/
noncomputable def CameraController.update_camera (c : CameraController)
    (cam : Camera) (dt : ℝ) : CameraController × Camera :=
  let forward : Vec3 := forwardOf cam.yaw
  let right : Vec3 := rightOf cam.yaw
  let p1 : Vec3 := Vec3.add cam.position
    (Vec3.smul ((c.intent_forward - c.intent_backward) * c.move_speed * dt) forward)
  let p2 : Vec3 := Vec3.add p1
    (Vec3.smul ((c.intent_right - c.intent_left) * c.move_speed * dt) right)
  let p3 : Vec3 := ⟨p2.x, p2.y + (c.intent_up - c.intent_down) * c.move_speed * dt, p2.z⟩
  let p4 : Vec3 := Vec3.add p3
    (Vec3.smul (c.scroll_accum * c.move_speed * dt) forward)
  let yaw1 : ℝ := cam.yaw + c.rotate_horizontal_accum * c.look_sensitivity * dt
  let pitch1 : ℝ := clampPitch (cam.pitch + -c.rotate_vertical_accum * c.look_sensitivity * dt)
  ({ c with rotate_horizontal_accum := 0, rotate_vertical_accum := 0, scroll_accum := 0 },
    { position := p4, yaw := yaw1, pitch := pitch1 })

/-- A sequence of `process_mouse` calls folded over a controller
(events arrive one at a time between two update ticks). -/
def processMouseList (c : CameraController) (evs : List (ℝ × ℝ)) :
    CameraController :=
  evs.foldl (fun acc e => acc.process_mouse e.1 e.2) c

/-- `CameraUniform` from `src/main.rs`: a homogeneous view position and
a 4×4 view-projection matrix. -/
structure CameraUniform where
  view_position : Fin 4 → ℝ
  view_proj : Matrix (Fin 4) (Fin 4) ℝ

/-- `CameraUniform::new` from `src/main.rs`: zero position, identity
view-projection matrix. -/
def CameraUniform.new : CameraUniform :=
  ⟨fun _ => 0, 1⟩

/-- `CameraUniform::update_view_proj` from `src/main.rs`: sets
`view_position` to the homogeneous camera position and `view_proj` to
`projection.calc_matrix() * camera.calc_matrix()`. -/
noncomputable def CameraUniform.update_view_proj (u : CameraUniform)
    (camera : Camera) (projection : Projection) : CameraUniform :=
  { u with
    view_position :=
      ![camera.position.x, camera.position.y, camera.position.z, 1]
    view_proj := projection.calc_matrix * camera.calc_matrix }

/-- The surface configuration fields of `wgpu::SurfaceConfiguration`
that `State::resize` mutates (`width`, `height`, both `u32`). -/
structure SurfaceConfig where
  width : ℕ
  height : ℕ

/-- The part of `State` from `src/main.rs` that the embedded methods
`resize`, `input` and `update` read or write (GPU handles, buffers and
the depth texture are external collaborators and carry no modelled
state). -/
structure State where
  config : SurfaceConfig
  camera : Camera
  projection : Projection
  camera_controller : CameraController
  camera_uniform : CameraUniform
  size : ℕ × ℕ
  mouse_pressed : Bool

/-- `State::resize` from `src/main.rs`: only when both dimensions of
the new size are positive does it forward to `Projection::resize` and
update `size` and the surface configuration; otherwise it does
nothing.  The second component of the result records the argument list
of every `Projection.resize` invocation the call performed, so that
the guard can be stated. -/
noncomputable def State.resize (s : State) (new_size : ℕ × ℕ) :
    State × List (ℕ × ℕ) :=
  if 0 < new_size.1 ∧ 0 < new_size.2 then
    ({ s with
        projection := s.projection.resize new_size.1 new_size.2
        size := new_size
        config := ⟨new_size.1, new_size.2⟩ }, [new_size])
  else (s, [])

/-- The `winit::event::DeviceEvent` constructors matched by
`State::input` in `src/main.rs`: a key event (with an optional virtual
key code), a mouse-wheel event (delta already normalised to the scroll
unit), a mouse-button event, a relative mouse-motion event, and
`other` for every remaining device event. -/
inductive DeviceEvent
  | key (code : Option Key) (pressed : Bool)
  | mouseWheel (delta : ℝ)
  | button (button : ℕ) (pressed : Bool)
  | mouseMotion (dx : ℝ) (dy : ℝ)
  | other

/-- `State::input` from `src/main.rs`: key events with a known key
code go to `process_keyboard` (modelled as `process_key`) and return
its result; wheel events go to `process_scroll` and are handled;
button `1` (left mouse) events set `mouse_pressed` and are handled;
mouse-motion events are forwarded to `process_mouse` only while
`mouse_pressed` holds, yet always report handled; everything else is
unhandled. -/
def State.input (s : State) (event : DeviceEvent) : State × Bool :=
  match event with
  | .key (some k) pressed =>
      let r := s.camera_controller.process_key k pressed
      ({ s with camera_controller := r.1 }, r.2)
  | .mouseWheel delta =>
      ({ s with camera_controller := s.camera_controller.process_scroll delta },
        true)
  | .button 1 pressed =>
      ({ s with mouse_pressed := pressed }, true)
  | .mouseMotion dx dy =>
      (if s.mouse_pressed then
        { s with camera_controller := s.camera_controller.process_mouse dx dy }
      else s, true)
  | _ => (s, false)

/-- `State::update` from `src/main.rs`: run the controller integrator
on the camera, then recompute the camera uniform from the new camera
and the projection (the subsequent `queue.write_buffer` upload is the
external renderer's side and carries no modelled state). -/
noncomputable def State.update (s : State) (dt : ℝ) : State :=
  let r := s.camera_controller.update_camera s.camera dt
  { s with
    camera_controller := r.1
    camera := r.2
    camera_uniform := s.camera_uniform.update_view_proj r.2 s.projection }

/-- `Vertex` from `src/vertex.rs`: a homogeneous position and a
2-component texture coordinate. -/
structure Vertex where
  pos : ℝ × ℝ × ℝ × ℝ
  tex_coord : ℝ × ℝ

/-- `Vertex::new` from `src/vertex.rs`: extends a 3-component position
with homogeneous `w = 1.0` and stores the texture coordinate. -/
def Vertex.new (pos : ℝ × ℝ × ℝ) (tc : ℝ × ℝ) : Vertex :=
  ⟨(pos.1, pos.2.1, pos.2.2, 1), tc⟩

/-- The `obj` crate's `TexturedVertex`: a position and a 3-component
texture coordinate (of which `obj_from_flie` uses the first two). -/
structure TexturedVertex where
  position : ℝ × ℝ × ℝ
  texture : ℝ × ℝ × ℝ

/-- The parsed OBJ document `Obj<TexturedVertex>` of the `obj` crate:
a vertex list and an index list (indices as naturals; the source's
`as u16` cast is truncation modulo `2^16`). -/
structure ObjData where
  vertices : List TexturedVertex
  indices : List ℕ

/-- `obj_from_flie` from `src/create_obj.rs`.  The external effects
are passed in as data: `openResult` is the outcome of `File::open`
(with the error already stringified, as `err.to_string()` produces),
and `load_obj` is the `obj` crate's parser applied to the buffered
file (again with a stringified error).  On success, each parsed vertex
becomes `Vertex::new(v.position, [v.texture[0], v.texture[1]])` and
each index is cast `as u16`. -/
def obj_from_flie {σ : Type} (openResult : Except String σ)
    (load_obj : σ → Except String ObjData) :
    Except String (List Vertex × List ℕ) :=
  match openResult with
  | .error err => .error err
  | .ok file =>
    match load_obj file with
    | .error err => .error err
    | .ok obj =>
      .ok
        (obj.vertices.map (fun v =>
          Vertex.new v.position (v.texture.1, v.texture.2.1)),
         obj.indices.map (fun i => i % 65536))

/-- The controller after pressing the forward key on a freshly built
controller (the "held forward key" scenario of the spec). -/
noncomputable def afterForwardPress (speed sensitivity : ℝ) : CameraController :=
  ((CameraController.new speed sensitivity).process_key Key.forward true).1

/-- The controller after pressing both the forward and the backward
key on a freshly built controller (the "key symmetry" scenario of the
spec). -/
noncomputable def afterForwardBackwardPress (speed sensitivity : ℝ) :
    CameraController :=
  ((afterForwardPress speed sensitivity).process_key Key.backward true).1

/-- The initial `State` built by `State::new` in `src/main.rs` (camera
at `(-1.2, 13, 25)` with yaw `-90°` and pitch `-5°`, a `45°` fov
projection with near `0.1` and far `100`, controller speed `4` and
sensitivity `0.4`, `mouse_pressed` false), at an 800×600 surface. -/
noncomputable def exampleState : State :=
  { config := ⟨800, 600⟩
    camera := Camera.new ⟨-(6/5), 13, 25⟩ (deg (-90)) (deg (-5))
    projection := Projection.new 800 600 (deg 45) (1/10) 100
    camera_controller := CameraController.new 4 (2/5)
    camera_uniform := CameraUniform.new
    size := (800, 600)
    mouse_pressed := false }

/- ------------------------------------------------------------------
Theorems.
------------------------------------------------------------------ -/

theorem pitchBound_pos : 0 < pitchBound := by
  have hpi := Real.pi_pos
  unfold pitchBound deg
  positivity

theorem clampPitch_le (x : ℝ) : clampPitch x ≤ pitchBound := by
  have hb := pitchBound_pos
  unfold clampPitch
  apply max_le
  · linarith
  · exact min_le_left _ _

theorem le_clampPitch (x : ℝ) : -pitchBound ≤ clampPitch x :=
  le_max_left _ _

theorem clampPitch_eq_of (x : ℝ) (h1 : -pitchBound ≤ x) (h2 : x ≤ pitchBound) :
    clampPitch x = x := by
  unfold clampPitch
  rw [min_eq_right h2, max_eq_right h1]

theorem clampPitch_idem (x : ℝ) : clampPitch (clampPitch x) = clampPitch x :=
  clampPitch_eq_of _ (le_clampPitch x) (clampPitch_le x)

theorem update_displacement_dot_forward (c : CameraController) (cam : Camera)
    (dt : ℝ) :
    Vec3.dot (Vec3.sub ((c.update_camera cam dt).2).position cam.position)
        (forwardOf cam.yaw)
      = (c.intent_forward - c.intent_backward + c.scroll_accum)
          * c.move_speed * dt := by
  simp only [CameraController.update_camera, Vec3.dot, Vec3.sub, Vec3.add,
    Vec3.smul, forwardOf, rightOf]
  linear_combination
    ((c.intent_forward - c.intent_backward + c.scroll_accum) * c.move_speed * dt)
      * Real.sin_sq_add_cos_sq cam.yaw

/-- Claim C1: for every controller state, every finite sequence of
`process_mouse` calls and every `dt ≥ 0`, after `update` the camera's
pitch lies within `[-89°, +89°]` inclusive, however large the
accumulated vertical delta was. -/
theorem pitch_clamped_after_update (c : CameraController)
    (evs : List (ℝ × ℝ)) (cam : Camera) (dt : ℝ) (hdt : 0 ≤ dt) :
    -pitchBound
        ≤ (((processMouseList c evs).update_camera cam dt).2).pitch ∧
      (((processMouseList c evs).update_camera cam dt).2).pitch
        ≤ pitchBound := by
  simp only [CameraController.update_camera]
  exact ⟨le_clampPitch _, clampPitch_le _⟩

theorem pitch_clamped_after_update_witness :
    (0 : ℝ) ≤ 1 ∧
      (-pitchBound
          ≤ (((processMouseList (CameraController.new 4 (2/5)) [(0, 1000000)]).update_camera
                (Camera.new ⟨0, 0, 0⟩ 0 0) 1).2).pitch ∧
        (((processMouseList (CameraController.new 4 (2/5)) [(0, 1000000)]).update_camera
              (Camera.new ⟨0, 0, 0⟩ 0 0) 1).2).pitch
          ≤ pitchBound) :=
  ⟨by norm_num,
    pitch_clamped_after_update (CameraController.new 4 (2/5)) [(0, 1000000)]
      (Camera.new ⟨0, 0, 0⟩ 0 0) 1 (by norm_num)⟩

/-- Claim C3: two consecutive `update` calls with no `process_mouse`
in between leave yaw and pitch unchanged across the second update; the
rotation accumulators are zero immediately after the first update,
while the directional-key intents are not reset by `update`. -/
theorem second_update_preserves_yaw_pitch (c : CameraController)
    (cam : Camera) (dt₁ dt₂ : ℝ) :
    (((c.update_camera cam dt₁).1.update_camera
          (c.update_camera cam dt₁).2 dt₂).2).yaw
        = ((c.update_camera cam dt₁).2).yaw ∧
      (((c.update_camera cam dt₁).1.update_camera
            (c.update_camera cam dt₁).2 dt₂).2).pitch
        = ((c.update_camera cam dt₁).2).pitch ∧
      ((c.update_camera cam dt₁).1).rotate_horizontal_accum = 0 ∧
      ((c.update_camera cam dt₁).1).rotate_vertical_accum = 0 ∧
      ((c.update_camera cam dt₁).1).intent_forward = c.intent_forward ∧
      ((c.update_camera cam dt₁).1).intent_backward = c.intent_backward ∧
      ((c.update_camera cam dt₁).1).intent_left = c.intent_left ∧
      ((c.update_camera cam dt₁).1).intent_right = c.intent_right ∧
      ((c.update_camera cam dt₁).1).intent_up = c.intent_up ∧
      ((c.update_camera cam dt₁).1).intent_down = c.intent_down := by
  simp [CameraController.update_camera, clampPitch_idem]

/-- Claim C4: after `process_key(Forward, true)` on a fresh controller
with positive speed and no release, each of two consecutive `update`
calls with positive `dt` displaces the camera strictly along its
forward direction (key intents persist across updates). -/
theorem held_forward_key_moves_twice (speed sensitivity : ℝ) (cam : Camera)
    (dt₁ dt₂ : ℝ) (hspeed : 0 < speed) (h₁ : 0 < dt₁) (h₂ : 0 < dt₂) :
    0 < Vec3.dot
        (Vec3.sub (((afterForwardPress speed sensitivity).update_camera cam dt₁).2).position
          cam.position)
        (forwardOf cam.yaw) ∧
      0 < Vec3.dot
        (Vec3.sub (((((afterForwardPress speed sensitivity).update_camera cam dt₁).1.update_camera
              ((afterForwardPress speed sensitivity).update_camera cam dt₁).2 dt₂).2).position)
          (((afterForwardPress speed sensitivity).update_camera cam dt₁).2).position)
        (forwardOf (((afterForwardPress speed sensitivity).update_camera cam dt₁).2).yaw) := by
  constructor
  · rw [update_displacement_dot_forward]
    simp only [afterForwardPress, CameraController.new,
      CameraController.process_key]
    norm_num
    exact mul_pos hspeed h₁
  · rw [update_displacement_dot_forward]
    simp only [afterForwardPress, CameraController.new,
      CameraController.process_key, CameraController.update_camera]
    norm_num
    exact mul_pos hspeed h₂

theorem held_forward_key_moves_twice_witness :
    (0 : ℝ) < 4 ∧ (0 : ℝ) < 1 ∧ (0 : ℝ) < 2 ∧
      (0 < Vec3.dot
          (Vec3.sub (((afterForwardPress 4 (2/5)).update_camera (Camera.new ⟨0, 0, 0⟩ 0 0) 1).2).position
            (Camera.new ⟨0, 0, 0⟩ 0 0).position)
          (forwardOf (Camera.new ⟨0, 0, 0⟩ 0 0).yaw) ∧
        0 < Vec3.dot
          (Vec3.sub (((((afterForwardPress 4 (2/5)).update_camera (Camera.new ⟨0, 0, 0⟩ 0 0) 1).1.update_camera
                ((afterForwardPress 4 (2/5)).update_camera (Camera.new ⟨0, 0, 0⟩ 0 0) 1).2 2).2).position)
            (((afterForwardPress 4 (2/5)).update_camera (Camera.new ⟨0, 0, 0⟩ 0 0) 1).2).position)
          (forwardOf (((afterForwardPress 4 (2/5)).update_camera (Camera.new ⟨0, 0, 0⟩ 0 0) 1).2).yaw)) :=
  ⟨by norm_num, by norm_num, by norm_num,
    held_forward_key_moves_twice 4 (2/5) (Camera.new ⟨0, 0, 0⟩ 0 0) 1 2
      (by norm_num) (by norm_num) (by norm_num)⟩

/-- Claim C5: pressing both the forward and the backward key on a
fresh controller and then updating produces zero net displacement
along the forward/backward axis, for every `dt`, speed, sensitivity
and camera state. -/
theorem opposing_keys_cancel (speed sensitivity : ℝ) (cam : Camera)
    (dt : ℝ) :
    Vec3.dot
        (Vec3.sub (((afterForwardBackwardPress speed sensitivity).update_camera cam dt).2).position
          cam.position)
        (forwardOf cam.yaw) = 0 := by
  rw [update_displacement_dot_forward]
  simp only [afterForwardBackwardPress, afterForwardPress,
    CameraController.new, CameraController.process_key]
  norm_num

/-- Claim C6: from position `(0,0,0)`, yaw `0`, pitch `0`, with
`move_speed = 4` (and the sensitivity `0.4` of `State::new`) and no
prior input, `process_key(Forward, true)` followed by
`update(dt = 0.5)` advances the position by exactly `4 * 0.5 = 2`
units along the forward direction implied by yaw `0` (which is
`(1,0,0)`), and leaves yaw and pitch unchanged. -/
theorem forward_scenario_half_second :
    (((afterForwardPress 4 (2/5)).update_camera (Camera.new ⟨0, 0, 0⟩ 0 0)
          (1/2)).2).position = (⟨2, 0, 0⟩ : Vec3) ∧
      forwardOf 0 = (⟨1, 0, 0⟩ : Vec3) ∧
      (((afterForwardPress 4 (2/5)).update_camera (Camera.new ⟨0, 0, 0⟩ 0 0)
            (1/2)).2).yaw = 0 ∧
      (((afterForwardPress 4 (2/5)).update_camera (Camera.new ⟨0, 0, 0⟩ 0 0)
            (1/2)).2).pitch = 0 := by
  have hb := pitchBound_pos
  have hclamp : clampPitch 0 = 0 :=
    clampPitch_eq_of 0 (by linarith) (by linarith)
  refine ⟨?_, ?_, ?_, ?_⟩ <;>
    simp [afterForwardPress, CameraController.new, CameraController.process_key,
      CameraController.update_camera, Camera.new, Vec3.add, Vec3.smul,
      forwardOf, rightOf, hclamp] <;>
    norm_num

/-- Claim C7: the movement basis (including the scroll impulse
direction) is computed from yaw only, so whenever the up intent equals
the down intent an `update` leaves `camera.position.y` unchanged, for
every controller, camera and `dt`. -/
theorem up_down_balance_fixes_y (c : CameraController) (cam : Camera)
    (dt : ℝ) (h : c.intent_up = c.intent_down) :
    (((c.update_camera cam dt).2).position).y = cam.position.y := by
  simp [CameraController.update_camera, Vec3.add, Vec3.smul, forwardOf,
    rightOf, h]

theorem up_down_balance_fixes_y_witness :
    ((CameraController.new 4 (2/5)).process_scroll 7).intent_up
        = ((CameraController.new 4 (2/5)).process_scroll 7).intent_down ∧
      ((((CameraController.new 4 (2/5)).process_scroll 7).update_camera
            (Camera.new ⟨5, 6, 7⟩ 1 (1/2)) 3).2).position.y
        = (Camera.new ⟨5, 6, 7⟩ 1 (1/2)).position.y :=
  ⟨rfl,
    up_down_balance_fixes_y ((CameraController.new 4 (2/5)).process_scroll 7)
      (Camera.new ⟨5, 6, 7⟩ 1 (1/2)) 3 rfl⟩

/-- Claim C2: each frame, after `State::update`, the uploaded
view-projection matrix equals `projection.calc_matrix() *
camera.calc_matrix()` — the projection matrix times the view matrix in
exactly that order — for every state and `dt`. -/
theorem frame_uniform_is_proj_mul_view (s : State) (dt : ℝ) :
    ((s.update dt).camera_uniform).view_proj
      = Projection.calc_matrix ((s.update dt).projection)
          * Camera.calc_matrix ((s.update dt).camera) := by
  simp [State.update, CameraUniform.update_view_proj]

/-- Claim C8: `State::resize` forwards to `Projection::resize` only
when both dimensions are positive; a zero width or height makes the
whole handler a no-op that leaves the state (projection,
configuration, size) unchanged and performs no `Projection.resize`
invocation. -/
theorem resize_zero_dimension_noop (s : State) (new_size : ℕ × ℕ) :
    ((new_size.1 = 0 ∨ new_size.2 = 0) →
        (s.resize new_size).1 = s ∧ (s.resize new_size).2 = []) ∧
      (∀ wh ∈ (s.resize new_size).2, 0 < wh.1 ∧ 0 < wh.2) := by
  constructor
  · intro h0
    have hng : ¬(0 < new_size.1 ∧ 0 < new_size.2) := by omega
    simp [State.resize, hng]
  · intro wh hwh
    by_cases h : 0 < new_size.1 ∧ 0 < new_size.2
    · simp [State.resize, h] at hwh
      subst hwh
      exact h
    · simp [State.resize, h] at hwh

theorem resize_zero_dimension_noop_witness :
    ((0 : ℕ) = 0 ∨ (600 : ℕ) = 0) ∧
      ((exampleState.resize (0, 600)).1 = exampleState ∧
        (exampleState.resize (0, 600)).2 = []) :=
  ⟨Or.inl rfl,
    (resize_zero_dimension_noop exampleState (0, 600)).1 (Or.inl rfl)⟩

/-- Claim C9: `State::input` forwards a mouse-motion event to
`process_mouse` exactly when `mouse_pressed` is true (set by the most
recent left-button event); with the button up the event changes
nothing, yet is still reported as handled. -/
theorem mouse_motion_gated_by_button (s : State) (dx dy : ℝ) :
    ((s.input (DeviceEvent.mouseMotion dx dy)).2 = true) ∧
      (s.mouse_pressed = true →
        (s.input (DeviceEvent.mouseMotion dx dy)).1
          = { s with
              camera_controller := s.camera_controller.process_mouse dx dy }) ∧
      (s.mouse_pressed = false →
        (s.input (DeviceEvent.mouseMotion dx dy)).1 = s) ∧
      ((s.input (DeviceEvent.mouseMotion dx dy)).1.camera = s.camera) ∧
      (∀ b : Bool,
        ((s.input (DeviceEvent.button 1 b)).1.mouse_pressed = b)) := by
  refine ⟨rfl, ?_, ?_, ?_, ?_⟩
  · intro h
    simp [State.input, h]
  · intro h
    simp [State.input, h]
  · by_cases h : s.mouse_pressed <;> simp [State.input, h]
  · intro b
    rfl

theorem mouse_motion_gated_by_button_witness :
    exampleState.mouse_pressed = false ∧
      (exampleState.input (DeviceEvent.mouseMotion 3 4)).1 = exampleState :=
  ⟨rfl, (mouse_motion_gated_by_button exampleState 3 4).2.2.1 rfl⟩

/-- Claim C10: `obj_from_flie` is total: it returns `Err` carrying the
underlying error's message exactly when the file open or the OBJ parse
fails, and otherwise `Ok` with one vertex per parsed OBJ vertex
(position extended with `w = 1` and the first two texture
coordinates) and the parsed index list (the `as u16` cast is the
identity on the `u16`-valued indices the parser yields). -/
theorem obj_from_flie_total {σ : Type} (openResult : Except String σ)
    (load_obj : σ → Except String ObjData) :
    (∀ e, openResult = Except.error e →
        obj_from_flie openResult load_obj = Except.error e) ∧
      (∀ f e, openResult = Except.ok f → load_obj f = Except.error e →
        obj_from_flie openResult load_obj = Except.error e) ∧
      (∀ f obj, openResult = Except.ok f → load_obj f = Except.ok obj →
        obj_from_flie openResult load_obj
            = Except.ok
                (obj.vertices.map (fun v =>
                  Vertex.new v.position (v.texture.1, v.texture.2.1)),
                 obj.indices.map (fun i => i % 65536)) ∧
          (obj.vertices.map (fun v =>
              Vertex.new v.position (v.texture.1, v.texture.2.1))).length
            = obj.vertices.length ∧
          ((∀ i ∈ obj.indices, i < 65536) →
            obj.indices.map (fun i => i % 65536) = obj.indices)) := by
  refine ⟨?_, ?_, ?_⟩
  · intro e he
    simp [obj_from_flie, he]
  · intro f e hf he
    simp [obj_from_flie, hf, he]
  · intro f obj hf hobj
    refine ⟨by simp [obj_from_flie, hf, hobj], List.length_map _ _, ?_⟩
    intro hlt
    have key : ∀ l : List ℕ, (∀ i ∈ l, i < 65536) →
        l.map (fun i => i % 65536) = l := by
      intro l
      induction l with
      | nil => intro _; simp
      | cons a t ih =>
        intro h
        have ha : a % 65536 = a := Nat.mod_eq_of_lt (h a (by simp))
        simp only [List.map_cons, ha]
        rw [ih (fun i hi => h i (by simp [hi]))]
    exact key _ hlt

theorem obj_from_flie_total_witness :
    obj_from_flie (Except.ok ())
        (fun _ => Except.ok (ObjData.mk [TexturedVertex.mk (1, 2, 3) (4, 5, 6)] [7]))
      = Except.ok ([Vertex.new (1, 2, 3) (4, 5)], [7]) := by
  have h :=
    (obj_from_flie_total (Except.ok ())
        (fun _ : Unit =>
          Except.ok (ObjData.mk [TexturedVertex.mk (1, 2, 3) (4, 5, 6)] [7]))).2.2
      () (ObjData.mk [TexturedVertex.mk (1, 2, 3) (4, 5, 6)] [7]) rfl rfl
  simpa using h.1

end Taggix
